import Mathlib

/-
 Verification of the tradebet repository: a pari-mutuel / liquidity-pool betting
 engine with live pricing, cashout valuation, crash-condition evaluation and
 settlement payout calculation.

 The source consists of browser demos sharing one conceptual engine:
  - an exchange variant (Arsenal vs Liverpool, "who scores first" market,
    with a void 0-0 outcome),
  - an exchange variant with a ratio-policy live cashout (Agree/Disagree),
  - an exchange variant with a mark-to-market cashout (entry-odds snapshot)
    and an executable cashout that mutates the pools,
  - a liquidity-based crash simulator (player-funded shared liquidity).

 The embedding below translates the numeric core of those files into Lean.
 JavaScript numbers are modelled as exact rationals: every quantity the engine
 manipulates is produced by finite arithmetic on finite inputs, and the guards
 of the source (safeNumber / safeDivide) eliminate the non-finite cases at the
 boundary.  A small JSNum type additionally models the NaN / Infinity guard of
 safeDivide itself, which is the one place the source branches on finiteness.
 DOM rendering, timers and event wiring are outside the embedded core; state
 mutation through the DOM (pool inputs, the cashout entry snapshot) is made
 explicit by passing and returning the state.
-/

namespace TradeBet

/-- Structured result of an engine command: either a tagged failure or a
success value, mirroring the `{ ok: false, reason }` / `{ ok: true, ... }`
records of the source. -/
inductive Res (ε α : Type) where
  | fail (err : ε)
  | ok (val : α)
deriving DecidableEq, Repr

/-- Model of a JavaScript number for the finiteness guards: either a finite
value (an exact rational) or one of the non-finite values. -/
inductive JSNum where
  | num (q : ℚ)
  | nan
  | posInf
  | negInf
deriving DecidableEq, Repr

/-- Number.isFinite. -/
def JSNum.isFinite : JSNum → Bool
  | .num _ => true
  | _ => false

/-- safeDivide(numerator, denominator): returns 0 unless both arguments are
finite and the denominator is positive, in which case it divides.  The
non-finite cases are absorbed by the isFinite guards of the source, and the
comparison denominator <= 0 is only reached on finite denominators. -/
def safeDivide : JSNum → JSNum → JSNum
  | .num q, .num r => if r ≤ 0 then .num 0 else .num (q / r)
  | _, _ => .num 0

/-- safeDivide specialised to finite inputs, used by the rest of the model
(every call site of the source feeds it values built from safeNumber). -/
def safeDivideQ (n d : ℚ) : ℚ := if d ≤ 0 then 0 else n / d

/-- clampNumber(value, min, max) = Math.min(Math.max(value, min), max). -/
def clampNumber (value lo hi : ℚ) : ℚ := min (max value lo) hi

/-- safeNumber on an already-numeric finite input: clamp below at 0. -/
def safeNumber (q : ℚ) : ℚ := max 0 q

/-- EXIT_FEE = 0.03. -/
def EXIT_FEE : ℚ := 3 / 100

/-- The two sides of the Agree/Disagree exchange variants. -/
inductive Side where
  | agree
  | disagree
deriving DecidableEq, Repr

/-- Result record of calcFinalPayout. -/
structure PayoutResult where
  winningPool : ℚ
  oppositePool : ℚ
  payout : ℚ
  netProfit : ℚ
deriving DecidableEq, Repr

/-- Failure reasons of the post-match payout renderer. -/
inductive PayoutError where
  | invalidStake
  | stakeExceedsWinningPool
deriving DecidableEq, Repr

/-- calcFinalPayout of the Agree/Disagree variants:
payout = stake * (1 + oppositePool / winningPool) * (1 - EXIT_FEE). -/
def calcFinalPayout (winningSide : Side) (stake agreePool disagreePool : ℚ) :
    PayoutResult :=
  let winningPool := if winningSide = Side.agree then agreePool else disagreePool
  let oppositePool := if winningSide = Side.agree then disagreePool else agreePool
  let ratio := safeDivideQ oppositePool winningPool
  let payout := stake * (1 + ratio) * (1 - EXIT_FEE)
  { winningPool := winningPool, oppositePool := oppositePool,
    payout := payout, netProfit := payout - stake }

/-- renderFinalPayout of the mark-to-market variant: guards the stake against
0 and against the winning pool recorded in the settlement snapshot, then
delegates to calcFinalPayout.  The displayed error messages are
"Stake must be greater than 0." and
"Stake cannot exceed the winning side pool from settlement.". -/
def renderFinalPayout (winningSide : Side) (stake agreePool disagreePool : ℚ) :
    Res PayoutError PayoutResult :=
  let winningPool := if winningSide = Side.agree then agreePool else disagreePool
  if stake ≤ 0 then .fail .invalidStake
  else if winningPool < stake then .fail .stakeExceedsWinningPool
  else .ok (calcFinalPayout winningSide stake agreePool disagreePool)

/-- Sides of the "who scores first" market of the Arsenal/Liverpool variant,
including the void outcome ("No goal"). -/
inductive ScoreSide where
  | arsenal
  | liverpool
  | noGoal
deriving DecidableEq, Repr

/-- calcFinalPayout of the Arsenal/Liverpool variant (renamed to avoid the
name clash with the Agree/Disagree variant): the "No goal" (0-0, void) market
refunds the stake with no fee and reports both pools as 0. -/
def calcFinalPayoutScore (winningSide : ScoreSide)
    (stake arsenalPool liverpoolPool : ℚ) : PayoutResult :=
  if winningSide = ScoreSide.noGoal then
    { winningPool := 0, oppositePool := 0, payout := stake, netProfit := 0 }
  else
    let winningPool := if winningSide = ScoreSide.arsenal then arsenalPool else liverpoolPool
    let oppositePool := if winningSide = ScoreSide.arsenal then liverpoolPool else arsenalPool
    let ratio := safeDivideQ oppositePool winningPool
    let payout := stake * (1 + ratio) * (1 - EXIT_FEE)
    { winningPool := winningPool, oppositePool := oppositePool,
      payout := payout, netProfit := payout - stake }

/-- renderFinalPayout of the Arsenal/Liverpool variant: the stake-vs-pool
guard is skipped for the void market. -/
def renderFinalPayoutScore (winningSide : ScoreSide)
    (stake arsenalPool liverpoolPool : ℚ) : Res PayoutError PayoutResult :=
  let winningPool := if winningSide = ScoreSide.arsenal then arsenalPool else liverpoolPool
  if stake ≤ 0 then .fail .invalidStake
  else if winningSide ≠ ScoreSide.noGoal ∧ winningPool < stake then
    .fail .stakeExceedsWinningPool
  else .ok (calcFinalPayoutScore winningSide stake arsenalPool liverpoolPool)

/-- Winning-side determination of the Arsenal/Liverpool endMatch: void when
0-0; the side that did not concede the only goals wins; a coin flip decides
when both scored. -/
def scoreWinner (arsenalGoals liverpoolGoals : ℕ) (coin : Bool) : ScoreSide :=
  if arsenalGoals + liverpoolGoals > 0 then
    if arsenalGoals = 0 then ScoreSide.liverpool
    else if liverpoolGoals = 0 then ScoreSide.arsenal
    else if coin then ScoreSide.arsenal else ScoreSide.liverpool
  else ScoreSide.noGoal

/-- Ratio-policy cashout result record. -/
structure CashoutRatioResult where
  userSidePool : ℚ
  oppositePool : ℚ
  rawCashout : ℚ
  cashout : ℚ
  profitLoss : ℚ
deriving DecidableEq, Repr

/-- calcCashout (ratio policy variant):
cashout = stake * (oppositePool / userSidePool) * (1 - EXIT_FEE), clamped into
[0, oppositePool].  No preconditions are checked. -/
def calcCashout (side : Side) (stake agreePool disagreePool : ℚ) :
    CashoutRatioResult :=
  let userSidePool := if side = Side.agree then agreePool else disagreePool
  let oppositePool := if side = Side.agree then disagreePool else agreePool
  let ratio := safeDivideQ oppositePool userSidePool
  let rawCashout := stake * ratio * (1 - EXIT_FEE)
  let cappedCashout := clampNumber rawCashout 0 oppositePool
  { userSidePool := userSidePool, oppositePool := oppositePool,
    rawCashout := rawCashout, cashout := cappedCashout,
    profitLoss := cappedCashout - stake }

/-- Entry snapshot of the mark-to-market cashout: (side, stake, entryOdds)
captured at the first valuation. -/
structure CashoutEntry where
  side : Side
  stake : ℚ
  entryOdds : ℚ
deriving DecidableEq, Repr

/-- Named failure reasons of the mark-to-market valuation and execution paths;
each corresponds to one distinct reason string of the source. -/
inductive CashoutReason where
  | notLive
  | invalidStake
  | stakeExceedsPool
  | insufficientLiquidity
  | cannotComputeOdds
  | staleEntry
  | missingEntryOdds
  | negativePool
deriving DecidableEq, Repr

/-- The reason string the source attaches to each failure. -/
def reasonMessage : CashoutReason → String
  | .notLive => "Match must be LIVE (started, not paused, not ended)."
  | .invalidStake => "Stake must be greater than 0."
  | .stakeExceedsPool => "Stake cannot exceed the available pool on your selected side."
  | .insufficientLiquidity => "Cashout unavailable (insufficient liquidity)."
  | .cannotComputeOdds => "Cashout unavailable (cannot compute odds)."
  | .staleEntry => "Side/stake changed. Click Calculate Cashout again to set a new entry reference."
  | .missingEntryOdds => "Cashout unavailable (missing entry odds)."
  | .negativePool => "Cashout failed: pools would go negative."

/-- Success record of calculateCashout (mark-to-market). -/
structure CashoutOk where
  side : Side
  userPool : ℚ
  oppositePool : ℚ
  totalPool : ℚ
  entryOdds : ℚ
  currentOdds : ℚ
  referenceValue : ℚ
  maxAvailable : ℚ
  preFeeExit : ℚ
  exitPayout : ℚ
  profitLoss : ℚ
  feeCharged : ℚ
deriving DecidableEq, Repr

/-- isLiveMatch: started and currently running, and not ended. -/
def isLiveMatch (running ended : Bool) : Bool := !ended && running

/-- getSidePools: (user side pool, opposite pool). -/
def getSidePools (side : Side) (agreePool disagreePool : ℚ) : ℚ × ℚ :=
  (if side = Side.agree then agreePool else disagreePool,
   if side = Side.agree then disagreePool else agreePool)

/-- getImpliedOdds = safeDivide(totalPool, sidePool). -/
def getImpliedOdds (totalPool sidePool : ℚ) : ℚ := safeDivideQ totalPool sidePool

/-- calculateCashout (mark-to-market policy).  The mutable
state.cashoutEntry of the source is passed in and the possibly updated
snapshot is returned alongside the result: on the first successful pass the
snapshot is captured from the current odds; a mismatching existing snapshot
fails with staleEntry. -/
def calculateCashout (running ended : Bool) (entry0 : Option CashoutEntry)
    (userSide : Side) (userStake agreePool disagreePool : ℚ) :
    Res CashoutReason CashoutOk × Option CashoutEntry :=
  if isLiveMatch running ended = false then (.fail .notLive, entry0)
  else if userStake ≤ 0 then (.fail .invalidStake, entry0)
  else
    let totalPool := agreePool + disagreePool
    let userPool := (getSidePools userSide agreePool disagreePool).1
    let oppositePool := (getSidePools userSide agreePool disagreePool).2
    if userPool < userStake then (.fail .stakeExceedsPool, entry0)
    else if userPool ≤ 0 ∨ oppositePool ≤ 0 ∨ totalPool ≤ 0 then
      (.fail .insufficientLiquidity, entry0)
    else
      let currentOdds := getImpliedOdds totalPool userPool
      if currentOdds ≤ 0 then (.fail .cannotComputeOdds, entry0)
      else
        let entry := entry0.getD
          { side := userSide, stake := userStake, entryOdds := currentOdds }
        if entry.side ≠ userSide ∨ entry.stake ≠ userStake then
          (.fail .staleEntry, some entry)
        else
          let entryOdds := entry.entryOdds
          if entryOdds ≤ 0 then (.fail .missingEntryOdds, some entry)
          else
            let referenceValue := userStake * safeDivideQ entryOdds currentOdds
            let maxAvailable := oppositePool
            let preFeeExit := min referenceValue maxAvailable
            let exitPayout := preFeeExit * (1 - EXIT_FEE)
            (.ok { side := userSide, userPool := userPool,
                   oppositePool := oppositePool, totalPool := totalPool,
                   entryOdds := entryOdds, currentOdds := currentOdds,
                   referenceValue := referenceValue,
                   maxAvailable := maxAvailable, preFeeExit := preFeeExit,
                   exitPayout := exitPayout,
                   profitLoss := exitPayout - userStake,
                   feeCharged := preFeeExit * EXIT_FEE },
             some entry)

/-- applyPools: before writing, each pool is clamped at 0 and floored to an
integer currency amount ("keep pools as non-negative integers"). -/
def applyPools (nextAgree nextDisagree : ℚ) : ℚ × ℚ :=
  ((Int.floor (max 0 nextAgree) : ℚ), (Int.floor (max 0 nextDisagree) : ℚ))

/-- Success record of executeCashout: the re-derived valuation plus the pool
values written back by applyPools. -/
structure ExecOk where
  result : CashoutOk
  newAgreePool : ℚ
  newDisagreePool : ℚ
deriving DecidableEq, Repr

/-- executeCashout: re-derives the valuation, debits the user side by the
stake and the opposite side by the exit payout, rejects (without mutating)
when either next pool is below -1e-9, and otherwise writes both pools through
applyPools. -/
def executeCashout (running ended : Bool) (entry0 : Option CashoutEntry)
    (userSide : Side) (userStake agreePool disagreePool : ℚ) :
    Res CashoutReason ExecOk × Option CashoutEntry :=
  let derived := calculateCashout running ended entry0 userSide userStake agreePool disagreePool
  match derived.1 with
  | .fail r => (.fail r, derived.2)
  | .ok v =>
    let nextA := if userSide = Side.agree then agreePool - userStake
                 else agreePool - v.exitPayout
    let nextB := if userSide = Side.agree then disagreePool - v.exitPayout
                 else disagreePool - userStake
    if nextA < -(1 / 1000000000) ∨ nextB < -(1 / 1000000000) then
      (.fail .negativePool, derived.2)
    else
      let pools := applyPools nextA nextB
      (.ok { result := v, newAgreePool := pools.1, newDisagreePool := pools.2 },
       derived.2)

/-- Immutable settlement snapshot captured by endMatch (Agree/Disagree
variant): pools, derived odds, outcome and fee rate.  The wall-clock
timestamp and the display string of the score are presentation data and are
not part of the embedded record. -/
structure Settlement where
  endReason : String
  minuteEnded : ℕ
  agreePool : ℚ
  disagreePool : ℚ
  totalPool : ℚ
  agreeOdds : ℚ
  disagreeOdds : ℚ
  arsenalGoals : ℕ
  liverpoolGoals : ℕ
  winningSide : Side
  exitFeeRate : ℚ
deriving DecidableEq, Repr

/-- Round state of the exchange variants. -/
structure MatchState where
  minute : ℕ
  running : Bool
  ended : Bool
  settlement : Option Settlement
deriving DecidableEq, Repr

/-- randomInt(min, max) (inclusive), drawing from an explicit oracle list so
that randomness consumption is observable: returns the draw and the rest of
the oracle. -/
def randomInt (lo hi : ℕ) (rng : List ℕ) : ℕ × List ℕ :=
  (lo + rng.headD 0 % (hi - lo + 1), rng.tail)

/-- endMatch (Agree/Disagree variant): a no-op on an already ended round;
otherwise stops the round, draws the two scores, determines the winning side
(Liverpool win means Agree wins; draw or Arsenal win means Disagree wins) and
captures the settlement snapshot from the live pools. -/
def endMatch (reason : String) (agreePool disagreePool : ℚ)
    (s : MatchState) (rng : List ℕ) : MatchState × List ℕ :=
  if s.ended then (s, rng)
  else
    let draw1 := randomInt 0 4 rng
    let arsenalGoals := draw1.1
    let draw2 := randomInt 0 4 draw1.2
    let liverpoolGoals := draw2.1
    let winningSide := if arsenalGoals < liverpoolGoals then Side.agree else Side.disagree
    let totalPool := agreePool + disagreePool
    ({ s with
       running := false, ended := true,
       settlement := some
         { endReason := reason, minuteEnded := s.minute,
           agreePool := agreePool, disagreePool := disagreePool,
           totalPool := totalPool,
           agreeOdds := safeDivideQ totalPool agreePool,
           disagreeOdds := safeDivideQ totalPool disagreePool,
           arsenalGoals := arsenalGoals, liverpoolGoals := liverpoolGoals,
           winningSide := winningSide, exitFeeRate := EXIT_FEE } },
     draw2.2)

/-- START_MULTIPLIER = 0.50 (crash variant). -/
def START_MULTIPLIER : ℚ := 1 / 2

/-- MULTIPLIER_STEP = 0.02 (crash variant). -/
def MULTIPLIER_STEP : ℚ := 2 / 100

/-- COUNTDOWN_SECONDS = 10 (crash variant). -/
def COUNTDOWN_SECONDS : ℤ := 10

/-- Number((x).toFixed(2)) on the multiples of 0.01 the simulator produces:
round to two decimal places. -/
def round2 (q : ℚ) : ℚ := (round (q * 100) : ℤ) / 100

/-- An active position of the crash variant. -/
structure Player where
  id : ℕ
  stake : ℚ
  entryMultiplier : ℚ
  currentPayout : ℚ
deriving DecidableEq, Repr

/-- Status of a settled (no longer active) position. -/
inductive SettledStatus where
  | cashedOut
  | lost
deriving DecidableEq, Repr

/-- A settled position of the crash variant (playersCashedOut entry). -/
structure SettledPlayer where
  id : ℕ
  stake : ℚ
  entryMultiplier : ℚ
  currentPayout : ℚ
  status : SettledStatus
  cashoutMultiplier : ℚ
  finalPayout : ℚ
deriving DecidableEq, Repr

/-- Round phases of the crash variant. -/
inductive CrashPhase where
  | idle
  | countdown
  | flying
  | crashed
deriving DecidableEq, Repr

/-- Full state of the crash simulator (timer ids are scheduling glue and are
not part of the embedded state). -/
structure CrashState where
  phase : CrashPhase
  nextPlayerId : ℕ
  liquidity : ℚ
  reserve : ℚ
  multiplier : ℚ
  countdown : ℤ
  playersActive : List Player
  playersCashedOut : List SettledPlayer
deriving DecidableEq, Repr

/-- activeStakeSum: sum of the stakes of the active players. -/
def activeStakeSum (ps : List Player) : ℚ :=
  ps.foldl (fun s p => s + p.stake) 0

/-- maxRequiredPayout: maximum of stake * entryMultiplier over the active
players, starting from 0. -/
def maxRequiredPayout (ps : List Player) : ℚ :=
  ps.foldl (fun m p => max m (p.stake * p.entryMultiplier)) 0

/-- shouldCrashNow: false when no positive payout is required, otherwise true
exactly when the maximum required payout exceeds the liquidity. -/
def shouldCrashNow (ps : List Player) (liquidity : ℚ) : Bool :=
  let needed := maxRequiredPayout ps
  if needed ≤ 0 then false else decide (liquidity < needed)

/-- The settled record of a player who lost in a crash. -/
def lostPlayer (p : Player) : SettledPlayer :=
  { id := p.id, stake := p.stake, entryMultiplier := p.entryMultiplier,
    currentPayout := p.currentPayout, status := .lost,
    cashoutMultiplier := p.entryMultiplier, finalPayout := 0 }

/-- crash: reserves the remaining liquidity for the next round, moves to the
crashed phase and marks all remaining active players as lost (each is
unshifted onto playersCashedOut, hence the reverse). -/
def crash (s : CrashState) : CrashState :=
  { s with
    reserve := s.liquidity, phase := .crashed,
    playersCashedOut := (s.playersActive.map lostPlayer).reverse ++ s.playersCashedOut,
    playersActive := [] }

/-- One flying-phase tick: advance the round multiplier and every active
player multiplier by MULTIPLIER_STEP (through the toFixed(2) rounding), then
crash immediately if the crash condition holds. -/
def advancePlayers (ps : List Player) : List Player :=
  ps.map fun p => { p with entryMultiplier := round2 (p.entryMultiplier + MULTIPLIER_STEP) }

/-- Body of the flying-phase interval callback. -/
def tick (s : CrashState) : CrashState :=
  let s1 := { s with multiplier := round2 (s.multiplier + MULTIPLIER_STEP),
                     playersActive := advancePlayers s.playersActive }
  if shouldCrashNow s1.playersActive s1.liquidity then crash s1 else s1

/-- addStake: allowed outside the crashed phase; the amount is floored to a
non-negative integer and must be positive; the stake funds the shared
liquidity and creates a fresh player at START_MULTIPLIER; if already flying
the crash condition is re-checked immediately. -/
def addStake (amount : ℚ) (s : CrashState) : CrashState :=
  if s.phase = CrashPhase.crashed then s
  else
    let stake : ℚ := (Int.floor (safeNumber amount) : ℚ)
    if stake ≤ 0 then s
    else
      let s1 := { s with liquidity := s.liquidity + stake }
      let player : Player :=
        { id := s1.nextPlayerId, stake := stake,
          entryMultiplier := START_MULTIPLIER,
          currentPayout := stake * START_MULTIPLIER }
      let s2 := { s1 with nextPlayerId := s1.nextPlayerId + 1,
                          playersActive := player :: s1.playersActive }
      if s2.phase = CrashPhase.flying ∧ shouldCrashNow s2.playersActive s2.liquidity
      then crash s2 else s2

/-- The settled record of a player who cashed out for the given payout. -/
def cashedPlayer (p : Player) (payout : ℚ) : SettledPlayer :=
  { id := p.id, stake := p.stake, entryMultiplier := p.entryMultiplier,
    currentPayout := payout, status := .cashedOut,
    cashoutMultiplier := p.entryMultiplier, finalPayout := payout }

/-- cashOutPlayer: only during flight; crashes immediately if the payout
exceeds the remaining liquidity; otherwise removes the player, debits the
liquidity (clamped at 0) and re-checks the crash condition. -/
def cashOutPlayer (playerId : ℕ) (s : CrashState) : CrashState :=
  if s.phase ≠ CrashPhase.flying then s
  else
    match s.playersActive.find? (fun p => p.id == playerId) with
    | none => s
    | some p =>
      let payout := p.stake * p.entryMultiplier
      if s.liquidity < payout then crash s
      else
        let s1 := { s with
          playersActive := s.playersActive.eraseP (fun q => q.id == playerId),
          liquidity := max 0 (s.liquidity - payout),
          playersCashedOut := cashedPlayer p payout :: s.playersCashedOut }
        if shouldCrashNow s1.playersActive s1.liquidity then crash s1 else s1

/-- restartGame: clears all players, restarts ids, carries the reserved
liquidity into the new round and returns to idle. -/
def restartGame (s : CrashState) : CrashState :=
  { s with
    playersActive := [], playersCashedOut := [],
    nextPlayerId := 1, liquidity := s.reserve,
    multiplier := START_MULTIPLIER, phase := .idle }

/-- The resetLiquidityBtn listener: zeroes liquidity and reserve, then
re-checks the crash condition when flying. -/
def resetLiquidity (s : CrashState) : CrashState :=
  let s1 := { s with liquidity := 0, reserve := 0 }
  if s1.phase = CrashPhase.flying ∧ shouldCrashNow s1.playersActive s1.liquidity
  then crash s1 else s1

/-- startCountdown: only from idle; resets the multiplier and starts the
countdown. -/
def startCountdown (s : CrashState) : CrashState :=
  if s.phase ≠ CrashPhase.idle then s
  else { s with multiplier := START_MULTIPLIER, phase := .countdown,
                countdown := COUNTDOWN_SECONDS }

/-- One countdown-interval step: decrement, and begin the flight when the
countdown reaches 0. -/
def countdownTick (s : CrashState) : CrashState :=
  if s.phase = CrashPhase.countdown then
    let c := s.countdown - 1
    if c ≤ 0 then { s with countdown := c, phase := .flying,
                           multiplier := START_MULTIPLIER }
    else { s with countdown := c }
  else s

/-- The flying-phase interval only runs while flying (it is cleared on
crash and restart). -/
def flightTick (s : CrashState) : CrashState :=
  if s.phase = CrashPhase.flying then tick s else s

/-- The operations that can reach the crash-simulator state. -/
inductive CrashOp where
  | stakeOp (amount : ℚ)
  | cashOutOp (playerId : ℕ)
  | flightTickOp
  | countdownTickOp
  | startOp
  | restartOp
  | resetLiquidityOp
deriving DecidableEq, Repr

/-- One transition of the crash simulator. -/
def step : CrashOp → CrashState → CrashState
  | .stakeOp a => addStake a
  | .cashOutOp pid => cashOutPlayer pid
  | .flightTickOp => flightTick
  | .countdownTickOp => countdownTick
  | .startOp => startCountdown
  | .restartOp => restartGame
  | .resetLiquidityOp => resetLiquidity

/-- Claim C8: every division in the core guards the zero, negative or
non-finite denominator and returns the sentinel 0 instead of propagating NaN
or Infinity: safeDivide returns numerator/denominator when both are finite
and the denominator is positive, returns 0 in every other case, and its
result is always a finite number. -/
theorem safeDivide_spec (n d : JSNum) :
    (safeDivide n d).isFinite = true
    ∧ (∀ q r : ℚ, n = JSNum.num q → d = JSNum.num r → 0 < r →
        safeDivide n d = JSNum.num (q / r))
    ∧ (¬ (∃ q r : ℚ, n = JSNum.num q ∧ d = JSNum.num r ∧ 0 < r) →
        safeDivide n d = JSNum.num 0) := by
  refine ⟨?_, ?_, ?_⟩
  · cases n <;> cases d <;>
      first
      | (simp only [safeDivide]; split <;> rfl)
      | rfl
  · intro q r hn hd hr
    subst hn; subst hd
    simp only [safeDivide, if_neg (not_le.mpr hr)]
  · intro h
    cases n with
    | num q =>
      cases d with
      | num r =>
        have hr : r ≤ 0 := by
          by_contra hc
          push_neg at hc
          exact h ⟨q, r, rfl, rfl, hc⟩
        simp only [safeDivide, if_pos hr]
      | nan => rfl
      | posInf => rfl
      | negInf => rfl
    | nan => cases d <;> rfl
    | posInf => cases d <;> rfl
    | negInf => cases d <;> rfl

theorem safeDivide_spec_witness :
    safeDivide (JSNum.num 3) (JSNum.num 2) = JSNum.num (3 / 2) :=
  (safeDivide_spec (JSNum.num 3) (JSNum.num 2)).2.1 3 2 rfl rfl (by norm_num)

/-- Claim C7: when the round settles with the void outcome (0-0, "No goal"),
the payout for any positive stake is exactly the stake: full refund, no fee,
zero net profit, no winning or losing pool involved (the result does not
depend on the pools), and the void outcome happens exactly when neither team
scored. -/
theorem void_refund (stake arsenalPool liverpoolPool arsenalPool2 liverpoolPool2 : ℚ)
    (arsenalGoals liverpoolGoals : ℕ) (coin : Bool) (hpos : 0 < stake) :
    renderFinalPayoutScore ScoreSide.noGoal stake arsenalPool liverpoolPool =
      Res.ok { winningPool := 0, oppositePool := 0, payout := stake, netProfit := 0 }
    ∧ renderFinalPayoutScore ScoreSide.noGoal stake arsenalPool liverpoolPool =
        renderFinalPayoutScore ScoreSide.noGoal stake arsenalPool2 liverpoolPool2
    ∧ (scoreWinner arsenalGoals liverpoolGoals coin = ScoreSide.noGoal ↔
        arsenalGoals = 0 ∧ liverpoolGoals = 0) := by
  have hns : ¬ stake ≤ 0 := not_le.mpr hpos
  refine ⟨?_, ?_, ?_⟩
  · simp [renderFinalPayoutScore, calcFinalPayoutScore, hns]
  · simp [renderFinalPayoutScore, calcFinalPayoutScore, hns]
  · unfold scoreWinner
    split_ifs <;> simp_all
    omega

theorem void_refund_witness :
    renderFinalPayoutScore ScoreSide.noGoal 200 500 1500 =
      Res.ok { winningPool := 0, oppositePool := 0, payout := 200, netProfit := 0 } :=
  (void_refund 200 500 1500 0 0 0 0 true (by norm_num)).1

/-- Claim C5: ending a round is idempotent: once a round is Ended, invoking
endMatch again (with any reason and any live pools) is a no-op: the state,
including the settlement snapshot, is unchanged, and the randomness oracle is
not consumed. -/
theorem endMatch_idempotent (reason1 reason2 : String)
    (agreePool1 disagreePool1 agreePool2 disagreePool2 : ℚ)
    (s : MatchState) (rng : List ℕ) :
    endMatch reason2 agreePool2 disagreePool2
        (endMatch reason1 agreePool1 disagreePool1 s rng).1
        (endMatch reason1 agreePool1 disagreePool1 s rng).2 =
      endMatch reason1 agreePool1 disagreePool1 s rng := by
  by_cases h : s.ended
  · simp [endMatch, h]
  · simp [endMatch, h]

/-- Claim C1: for a settled round with a winning side, computing the final
payout for a stake with 0 < stake <= winningPool yields
payout = stake * (1 + oppositePool / winningPool) * (1 - 0.03); a stake that
is non-positive or exceeds the winning pool fails with the corresponding
invalid-stake error and produces no payout. -/
theorem renderFinalPayout_spec (winningSide : Side) (stake agreePool disagreePool : ℚ) :
    (0 < stake →
      stake ≤ (if winningSide = Side.agree then agreePool else disagreePool) →
      renderFinalPayout winningSide stake agreePool disagreePool =
        Res.ok {
          winningPool := (if winningSide = Side.agree then agreePool else disagreePool),
          oppositePool := (if winningSide = Side.agree then disagreePool else agreePool),
          payout := stake * (1 + (if winningSide = Side.agree then disagreePool else agreePool) /
            (if winningSide = Side.agree then agreePool else disagreePool)) * (1 - 3 / 100),
          netProfit := stake * (1 + (if winningSide = Side.agree then disagreePool else agreePool) /
            (if winningSide = Side.agree then agreePool else disagreePool)) * (1 - 3 / 100) - stake })
    ∧ (stake ≤ 0 →
        renderFinalPayout winningSide stake agreePool disagreePool =
          Res.fail PayoutError.invalidStake)
    ∧ (0 < stake →
        (if winningSide = Side.agree then agreePool else disagreePool) < stake →
        renderFinalPayout winningSide stake agreePool disagreePool =
          Res.fail PayoutError.stakeExceedsWinningPool) := by
  refine ⟨?_, ?_, ?_⟩
  · intro hpos hle
    have hw : 0 < (if winningSide = Side.agree then agreePool else disagreePool) :=
      lt_of_lt_of_le hpos hle
    cases winningSide <;>
      simp_all [renderFinalPayout, calcFinalPayout, safeDivideQ, EXIT_FEE] <;>
      split_ifs <;> first | rfl | linarith
  · intro hns
    cases winningSide <;> simp [renderFinalPayout, hns]
  · intro hpos hgt
    cases winningSide <;>
      simp_all [renderFinalPayout, not_le.mpr hpos]

theorem renderFinalPayout_spec_witness :
    renderFinalPayout Side.agree 200 500 1500 =
      Res.ok { winningPool := 500, oppositePool := 1500, payout := 776, netProfit := 576 } := by
  have h := (renderFinalPayout_spec Side.agree 200 500 1500).1
    (by norm_num) (by norm_num)
  rw [h]
  norm_num

/-- Inversion helper: a successful mark-to-market valuation forces every
guard of calculateCashout to have passed and determines the result record. -/
lemma calculateCashout_ok_elim (running ended : Bool) (entry0 : Option CashoutEntry)
    (side : Side) (stake agreePool disagreePool : ℚ) (r : CashoutOk)
    (h : (calculateCashout running ended entry0 side stake agreePool disagreePool).1 = Res.ok r) :
    ∃ odds : ℚ, ∃ entry : CashoutEntry,
      odds = getImpliedOdds (agreePool + disagreePool)
        (getSidePools side agreePool disagreePool).1 ∧
      entry = entry0.getD { side := side, stake := stake, entryOdds := odds } ∧
      isLiveMatch running ended = true ∧
      0 < stake ∧
      stake ≤ (getSidePools side agreePool disagreePool).1 ∧
      0 < (getSidePools side agreePool disagreePool).1 ∧
      0 < (getSidePools side agreePool disagreePool).2 ∧
      0 < agreePool + disagreePool ∧
      entry.side = side ∧ entry.stake = stake ∧ 0 < entry.entryOdds ∧
      r = { side := side,
            userPool := (getSidePools side agreePool disagreePool).1,
            oppositePool := (getSidePools side agreePool disagreePool).2,
            totalPool := agreePool + disagreePool,
            entryOdds := entry.entryOdds,
            currentOdds := odds,
            referenceValue := stake * safeDivideQ entry.entryOdds odds,
            maxAvailable := (getSidePools side agreePool disagreePool).2,
            preFeeExit := min (stake * safeDivideQ entry.entryOdds odds)
              (getSidePools side agreePool disagreePool).2,
            exitPayout := min (stake * safeDivideQ entry.entryOdds odds)
              (getSidePools side agreePool disagreePool).2 * (1 - EXIT_FEE),
            profitLoss := min (stake * safeDivideQ entry.entryOdds odds)
              (getSidePools side agreePool disagreePool).2 * (1 - EXIT_FEE) - stake,
            feeCharged := min (stake * safeDivideQ entry.entryOdds odds)
              (getSidePools side agreePool disagreePool).2 * EXIT_FEE } := by
  simp only [calculateCashout] at h
  set odds : ℚ := getImpliedOdds (agreePool + disagreePool) (getSidePools side agreePool disagreePool).1 with hodds
  set fresh : CashoutEntry := entry0.getD { side := side, stake := stake, entryOdds := odds } with hfresh
  by_cases h1 : isLiveMatch running ended = false
  · rw [if_pos h1] at h; exact Res.noConfusion h
  rw [if_neg h1] at h
  by_cases h2 : stake ≤ 0
  · rw [if_pos h2] at h; exact Res.noConfusion h
  rw [if_neg h2] at h
  by_cases h3 : (getSidePools side agreePool disagreePool).1 < stake
  · rw [if_pos h3] at h; exact Res.noConfusion h
  rw [if_neg h3] at h
  by_cases h4 : (getSidePools side agreePool disagreePool).1 ≤ 0 ∨
      (getSidePools side agreePool disagreePool).2 ≤ 0 ∨ agreePool + disagreePool ≤ 0
  · rw [if_pos h4] at h; exact Res.noConfusion h
  rw [if_neg h4] at h
  by_cases h5 : odds ≤ 0
  · rw [if_pos h5] at h; exact Res.noConfusion h
  rw [if_neg h5] at h
  by_cases h6 : ¬ fresh.side = side ∨ ¬ fresh.stake = stake
  · rw [if_pos h6] at h; exact Res.noConfusion h
  rw [if_neg h6] at h
  by_cases h7 : fresh.entryOdds ≤ 0
  · rw [if_pos h7] at h; exact Res.noConfusion h
  rw [if_neg h7] at h
  push_neg at h4 h6
  injection h with hr
  exact ⟨odds, fresh, hodds, hfresh, by simpa using h1, lt_of_not_le h2, le_of_not_lt h3,
    h4.1, h4.2.1, h4.2.2, h6.1, h6.2, lt_of_not_le h7, hr.symm⟩

/-- Inversion helper: a staleEntry failure forces an existing snapshot whose
side or stake differs from the requested pair. -/
lemma calculateCashout_stale_elim (running ended : Bool) (entry0 : Option CashoutEntry)
    (side : Side) (stake agreePool disagreePool : ℚ)
    (h : (calculateCashout running ended entry0 side stake agreePool disagreePool).1 =
      Res.fail CashoutReason.staleEntry) :
    ∃ e : CashoutEntry, entry0 = some e ∧ (e.side ≠ side ∨ e.stake ≠ stake) := by
  simp only [calculateCashout] at h
  set odds : ℚ := getImpliedOdds (agreePool + disagreePool) (getSidePools side agreePool disagreePool).1 with hodds
  set fresh : CashoutEntry := entry0.getD { side := side, stake := stake, entryOdds := odds } with hfresh
  by_cases h1 : isLiveMatch running ended = false
  · rw [if_pos h1] at h; simp at h
  rw [if_neg h1] at h
  by_cases h2 : stake ≤ 0
  · rw [if_pos h2] at h; simp at h
  rw [if_neg h2] at h
  by_cases h3 : (getSidePools side agreePool disagreePool).1 < stake
  · rw [if_pos h3] at h; simp at h
  rw [if_neg h3] at h
  by_cases h4 : (getSidePools side agreePool disagreePool).1 ≤ 0 ∨
      (getSidePools side agreePool disagreePool).2 ≤ 0 ∨ agreePool + disagreePool ≤ 0
  · rw [if_pos h4] at h; simp at h
  rw [if_neg h4] at h
  by_cases h5 : odds ≤ 0
  · rw [if_pos h5] at h; simp at h
  rw [if_neg h5] at h
  by_cases h6 : ¬ fresh.side = side ∨ ¬ fresh.stake = stake
  · cases entry0 with
    | none =>
      exfalso
      rw [hfresh] at h6
      simp [Option.getD] at h6
    | some e =>
      refine ⟨e, rfl, ?_⟩
      rw [hfresh] at h6
      simpa [Option.getD] using h6
  rw [if_neg h6] at h
  by_cases h7 : fresh.entryOdds ≤ 0
  · rw [if_pos h7] at h; simp at h
  rw [if_neg h7] at h
  simp at h

/-- Claim C2, counterexample: under the ratio policy the cap is the gross
opposite pool, not the opposite pool net of fee.  With side Agree, stake 200
and pools (100, 100) the valuation returns cashout = 100, which exceeds
oppositePool * (1 - 0.03) = 97. -/
theorem cashout_cap_cex :
    (calcCashout Side.agree 200 100 100).cashout = 100 ∧
    ¬ ((calcCashout Side.agree 200 100 100).cashout ≤
        (calcCashout Side.agree 200 100 100).oppositePool * (1 - 3 / 100)) := by
  constructor
  · norm_num [calcCashout, clampNumber, safeDivideQ, EXIT_FEE]
  · norm_num [calcCashout, clampNumber, safeDivideQ, EXIT_FEE]

/-- Claim C2 (amended): every successful mark-to-market valuation satisfies
exitPayout <= oppositePool * (1 - feeRate) with feeRate = 0.03; the ratio
policy only guarantees the gross bound cashout <= oppositePool (it can exceed
the fee-net bound when the stake exceeds the user side pool). -/
theorem cashout_cap (running ended : Bool) (entry0 : Option CashoutEntry)
    (side : Side) (stake agreePool disagreePool : ℚ) :
    (∀ r : CashoutOk,
      (calculateCashout running ended entry0 side stake agreePool disagreePool).1 =
        Res.ok r →
      r.exitPayout ≤ r.oppositePool * (1 - 3 / 100))
    ∧ (calcCashout side stake agreePool disagreePool).cashout ≤
        (calcCashout side stake agreePool disagreePool).oppositePool := by
  constructor
  · intro r h
    obtain ⟨odds, entry, h1, h2, h3, h4, h5, h6, h7, h8, h9, h10, h11, hr⟩ :=
      calculateCashout_ok_elim running ended entry0 side stake agreePool disagreePool r h
    subst hr
    show min (stake * safeDivideQ entry.entryOdds odds)
        (getSidePools side agreePool disagreePool).2 * (1 - 3 / 100) ≤
      (getSidePools side agreePool disagreePool).2 * (1 - 3 / 100)
    exact mul_le_mul_of_nonneg_right (min_le_right _ _) (by norm_num)
  · simp only [calcCashout, clampNumber]
    exact min_le_right _ _

theorem cashout_cap_witness :
    (97 : ℚ) / 2 ≤ 100 * (1 - 3 / 100) := by
  have h : (calculateCashout true false none Side.agree 50 100 100).1 =
      Res.ok { side := Side.agree, userPool := 100, oppositePool := 100,
               totalPool := 200, entryOdds := 2, currentOdds := 2,
               referenceValue := 50, maxAvailable := 100, preFeeExit := 50,
               exitPayout := 97 / 2, profitLoss := 97 / 2 - 50,
               feeCharged := 3 / 2 } := by
    norm_num [calculateCashout, getSidePools, getImpliedOdds, safeDivideQ,
      isLiveMatch, EXIT_FEE, Option.getD]
  exact (cashout_cap true false none Side.agree 50 100 100).1 _ h

/-- Claim C6: each violated precondition of the mark-to-market valuation
yields its own named failure, checked in source order: a round that is not
live fails with notLive; then a non-positive stake fails with invalidStake; a
stake exceeding the user side pool fails with stakeExceedsPool; then a
non-positive user pool, opposite pool or total pool fails with
insufficientLiquidity; and a valuation succeeds only when all the
preconditions hold. -/
theorem cashout_error_taxonomy (running ended : Bool) (entry0 : Option CashoutEntry)
    (side : Side) (stake agreePool disagreePool : ℚ) :
    (isLiveMatch running ended = false →
      (calculateCashout running ended entry0 side stake agreePool disagreePool).1 =
        Res.fail CashoutReason.notLive)
    ∧ (isLiveMatch running ended = true → stake ≤ 0 →
      (calculateCashout running ended entry0 side stake agreePool disagreePool).1 =
        Res.fail CashoutReason.invalidStake)
    ∧ (isLiveMatch running ended = true → 0 < stake →
      (getSidePools side agreePool disagreePool).1 < stake →
      (calculateCashout running ended entry0 side stake agreePool disagreePool).1 =
        Res.fail CashoutReason.stakeExceedsPool)
    ∧ (isLiveMatch running ended = true → 0 < stake →
      stake ≤ (getSidePools side agreePool disagreePool).1 →
      ((getSidePools side agreePool disagreePool).1 ≤ 0 ∨
       (getSidePools side agreePool disagreePool).2 ≤ 0 ∨
       agreePool + disagreePool ≤ 0) →
      (calculateCashout running ended entry0 side stake agreePool disagreePool).1 =
        Res.fail CashoutReason.insufficientLiquidity)
    ∧ (∀ r : CashoutOk,
      (calculateCashout running ended entry0 side stake agreePool disagreePool).1 =
        Res.ok r →
      isLiveMatch running ended = true ∧ 0 < stake ∧
      stake ≤ (getSidePools side agreePool disagreePool).1 ∧
      0 < (getSidePools side agreePool disagreePool).1 ∧
      0 < (getSidePools side agreePool disagreePool).2 ∧
      0 < agreePool + disagreePool) := by
  refine ⟨?_, ?_, ?_, ?_, ?_⟩
  · intro h
    simp [calculateCashout, h]
  · intro hl hs
    simp [calculateCashout, hl, hs]
  · intro hl hs hgt
    simp [calculateCashout, hl, not_le.mpr hs, hgt]
  · intro hl hs hle hins
    simp only [calculateCashout, hl, not_le.mpr hs, not_lt.mpr hle, hins]
    simp
  · intro r h
    obtain ⟨odds, entry, h1, h2, h3, h4, h5, h6, h7, h8, h9, h10, h11, hr⟩ :=
      calculateCashout_ok_elim running ended entry0 side stake agreePool disagreePool r h
    exact ⟨h3, h4, h5, h6, h7, h8⟩

theorem cashout_error_taxonomy_witness :
    (calculateCashout false false none Side.agree 10 100 100).1 =
      Res.fail CashoutReason.notLive :=
  (cashout_error_taxonomy false false none Side.agree 10 100 100).1 rfl

/-- Claim C10: with no entry snapshot present, the first valuation for any
side and stake satisfying the preconditions succeeds (it never fails with the
stale-entry error), captures entryOdds = currentOdds at that instant, has
referenceValue equal to the stake and exitPayout equal to
min(stake, oppositePool) * (1 - 0.03); a stale-entry failure can only occur
when a snapshot already exists and its side or stake differs from the
request. -/
theorem first_valuation_spec (running ended : Bool) (side : Side)
    (stake agreePool disagreePool : ℚ) :
    (isLiveMatch running ended = true → 0 < stake →
      stake ≤ (getSidePools side agreePool disagreePool).1 →
      0 < (getSidePools side agreePool disagreePool).1 →
      0 < (getSidePools side agreePool disagreePool).2 →
      calculateCashout running ended none side stake agreePool disagreePool =
        (Res.ok { side := side,
                  userPool := (getSidePools side agreePool disagreePool).1,
                  oppositePool := (getSidePools side agreePool disagreePool).2,
                  totalPool := agreePool + disagreePool,
                  entryOdds := (agreePool + disagreePool) /
                    (getSidePools side agreePool disagreePool).1,
                  currentOdds := (agreePool + disagreePool) /
                    (getSidePools side agreePool disagreePool).1,
                  referenceValue := stake,
                  maxAvailable := (getSidePools side agreePool disagreePool).2,
                  preFeeExit := min stake (getSidePools side agreePool disagreePool).2,
                  exitPayout := min stake (getSidePools side agreePool disagreePool).2 * (1 - 3 / 100),
                  profitLoss := min stake (getSidePools side agreePool disagreePool).2 * (1 - 3 / 100) - stake,
                  feeCharged := min stake (getSidePools side agreePool disagreePool).2 * (3 / 100) },
         some { side := side, stake := stake,
                entryOdds := (agreePool + disagreePool) /
                  (getSidePools side agreePool disagreePool).1 }))
    ∧ ((calculateCashout running ended none side stake agreePool disagreePool).1 ≠
        Res.fail CashoutReason.staleEntry)
    ∧ (∀ e : CashoutEntry,
        (calculateCashout running ended (some e) side stake agreePool disagreePool).1 =
          Res.fail CashoutReason.staleEntry →
        e.side ≠ side ∨ e.stake ≠ stake) := by
  refine ⟨?_, ?_, ?_⟩
  · intro hlive hs hsp hup hop
    have htot : 0 < agreePool + disagreePool := by
      cases side <;> simp [getSidePools] at hup hop <;> linarith
    have hdivpos : 0 < (agreePool + disagreePool) /
        (getSidePools side agreePool disagreePool).1 := div_pos htot hup
    have hodds1 : (agreePool + disagreePool) /
        (getSidePools side agreePool disagreePool).1 /
        ((agreePool + disagreePool) / (getSidePools side agreePool disagreePool).1) = 1 :=
      div_self (ne_of_gt hdivpos)
    simp [calculateCashout, hlive, not_le.mpr hs, not_lt.mpr hsp, not_le.mpr hup,
      not_le.mpr hop, not_le.mpr htot, not_le.mpr hdivpos, Option.getD,
      getImpliedOdds, safeDivideQ, EXIT_FEE, hodds1]
  · intro h
    obtain ⟨e, he, -⟩ := calculateCashout_stale_elim running ended none side stake
      agreePool disagreePool h
    exact Option.noConfusion he
  · intro e h
    obtain ⟨e2, he, hmis⟩ := calculateCashout_stale_elim running ended (some e) side stake
      agreePool disagreePool h
    obtain rfl : e = e2 := by injection he
    exact hmis

theorem first_valuation_spec_witness :
    calculateCashout true false none Side.agree 50 100 100 =
      (Res.ok { side := Side.agree,
                userPool := (getSidePools Side.agree 100 100).1,
                oppositePool := (getSidePools Side.agree 100 100).2,
                totalPool := 100 + 100,
                entryOdds := (100 + 100) / (getSidePools Side.agree 100 100).1,
                currentOdds := (100 + 100) / (getSidePools Side.agree 100 100).1,
                referenceValue := 50,
                maxAvailable := (getSidePools Side.agree 100 100).2,
                preFeeExit := min 50 (getSidePools Side.agree 100 100).2,
                exitPayout := min 50 (getSidePools Side.agree 100 100).2 * (1 - 3 / 100),
                profitLoss := min 50 (getSidePools Side.agree 100 100).2 * (1 - 3 / 100) - 50,
                feeCharged := min 50 (getSidePools Side.agree 100 100).2 * (3 / 100) },
       some { side := Side.agree, stake := 50,
              entryOdds := (100 + 100) / (getSidePools Side.agree 100 100).1 }) :=
  (first_valuation_spec true false Side.agree 50 100 100).1 rfl (by norm_num)
    (by norm_num [getSidePools]) (by norm_num [getSidePools]) (by norm_num [getSidePools])

/-- Claim C4, counterexample: a successfully executed cashout does not leave
the opposite pool decreased by exactly the exit payout: applyPools floors the
written pools to integers.  With stake 50 on Agree and pools (100, 100), the
exit payout is 48.5 but the new Disagree pool is 51, not 100 - 48.5 = 51.5. -/
theorem executeCashout_floor_cex :
    (executeCashout true false none Side.agree 50 100 100).1 =
      Res.ok { result := { side := Side.agree, userPool := 100, oppositePool := 100,
                           totalPool := 200, entryOdds := 2, currentOdds := 2,
                           referenceValue := 50, maxAvailable := 100, preFeeExit := 50,
                           exitPayout := 97 / 2, profitLoss := 97 / 2 - 50,
                           feeCharged := 3 / 2 },
               newAgreePool := 50, newDisagreePool := 51 }
    ∧ (100 : ℚ) - 97 / 2 ≠ 51 := by
  constructor
  · norm_num [executeCashout, calculateCashout, applyPools, getSidePools, getImpliedOdds,
      safeDivideQ, isLiveMatch, EXIT_FEE, Option.getD]
  · norm_num

/-- Claim C4 (amended): executing a cashout re-derives the valuation and then
debits both pools in one atomic operation, the user side by the stake and the
opposite side by the exit payout, with each written pool clamped at zero and
floored to an integer by applyPools; when either next pool would fall below
-1e-9 the execution is rejected with the negative-pool failure and no pool is
written, and on success both written pools are non-negative. -/
theorem executeCashout_spec (running ended : Bool) (entry0 : Option CashoutEntry)
    (side : Side) (stake agreePool disagreePool : ℚ) :
    (∀ r : CashoutReason,
      (calculateCashout running ended entry0 side stake agreePool disagreePool).1 =
        Res.fail r →
      (executeCashout running ended entry0 side stake agreePool disagreePool).1 =
        Res.fail r)
    ∧ (∀ v : CashoutOk,
      (calculateCashout running ended entry0 side stake agreePool disagreePool).1 =
        Res.ok v →
      (((if side = Side.agree then agreePool - stake else agreePool - v.exitPayout) <
          -(1 / 1000000000) ∨
        (if side = Side.agree then disagreePool - v.exitPayout else disagreePool - stake) <
          -(1 / 1000000000)) →
        (executeCashout running ended entry0 side stake agreePool disagreePool).1 =
          Res.fail CashoutReason.negativePool)
      ∧ (¬ ((if side = Side.agree then agreePool - stake else agreePool - v.exitPayout) <
            -(1 / 1000000000) ∨
          (if side = Side.agree then disagreePool - v.exitPayout else disagreePool - stake) <
            -(1 / 1000000000)) →
        (executeCashout running ended entry0 side stake agreePool disagreePool).1 =
          Res.ok { result := v,
                   newAgreePool := (Int.floor (max 0 (if side = Side.agree
                     then agreePool - stake else agreePool - v.exitPayout)) : ℚ),
                   newDisagreePool := (Int.floor (max 0 (if side = Side.agree
                     then disagreePool - v.exitPayout else disagreePool - stake)) : ℚ) }
        ∧ 0 ≤ ((Int.floor (max 0 (if side = Side.agree
            then agreePool - stake else agreePool - v.exitPayout)) : ℚ))
        ∧ 0 ≤ ((Int.floor (max 0 (if side = Side.agree
            then disagreePool - v.exitPayout else disagreePool - stake)) : ℚ)))) := by
  constructor
  · intro r h
    simp [executeCashout, h]
  · intro v h
    constructor
    · intro hneg
      simp only [executeCashout, h]
      rw [if_pos hneg]
    · intro hok
      refine ⟨?_, ?_, ?_⟩
      · simp only [executeCashout, h]
        rw [if_neg hok]
        simp [applyPools]
      · exact Int.cast_nonneg.mpr (Int.floor_nonneg.mpr (le_max_left 0 _))
      · exact Int.cast_nonneg.mpr (Int.floor_nonneg.mpr (le_max_left 0 _))

theorem executeCashout_spec_witness :
    (executeCashout false false none Side.agree 10 100 100).1 =
      Res.fail CashoutReason.notLive :=
  (executeCashout_spec false false none Side.agree 10 100 100).1
    CashoutReason.notLive (by simp [calculateCashout, isLiveMatch])

lemma foldl_max_init_le (ps : List Player) (m : ℚ) :
    m ≤ ps.foldl (fun acc p => max acc (p.stake * p.entryMultiplier)) m := by
  induction ps generalizing m with
  | nil => simp
  | cons p ps ih => exact le_trans (le_max_left _ _) (ih _)

lemma mem_le_foldl_max (p : Player) (ps : List Player) (m : ℚ) (hp : p ∈ ps) :
    p.stake * p.entryMultiplier ≤
      ps.foldl (fun acc q => max acc (q.stake * q.entryMultiplier)) m := by
  induction ps generalizing m with
  | nil => cases hp
  | cons q ps ih =>
    rcases List.mem_cons.mp hp with rfl | hmem
    · exact le_trans (le_max_right _ _) (foldl_max_init_le _ _)
    · exact ih _ hmem

lemma foldl_max_le (ps : List Player) (m c : ℚ) (hm : m ≤ c)
    (hps : ∀ p ∈ ps, p.stake * p.entryMultiplier ≤ c) :
    ps.foldl (fun acc q => max acc (q.stake * q.entryMultiplier)) m ≤ c := by
  induction ps generalizing m with
  | nil => simpa using hm
  | cons q ps ih =>
    exact ih _ (max_le hm (hps q (List.mem_cons_self _ _)))
      (fun p hp => hps p (List.mem_cons_of_mem _ hp))

lemma shouldCrashNow_iff (ps : List Player) (liq : ℚ) (hl : 0 ≤ liq) :
    shouldCrashNow ps liq = true ↔ ∃ p ∈ ps, liq < p.stake * p.entryMultiplier := by
  simp only [shouldCrashNow, maxRequiredPayout]
  constructor
  · intro h
    split_ifs at h with hneed
    have hlt : liq < ps.foldl (fun acc q => max acc (q.stake * q.entryMultiplier)) 0 :=
      of_decide_eq_true h
    by_contra hc
    push_neg at hc
    exact absurd hlt (not_lt.mpr (foldl_max_le ps 0 liq hl hc))
  · rintro ⟨p, hp, hv⟩
    have h1 : liq < ps.foldl (fun acc q => max acc (q.stake * q.entryMultiplier)) 0 :=
      lt_of_lt_of_le hv (mem_le_foldl_max p ps 0 hp)
    rw [if_neg (not_le.mpr (lt_of_le_of_lt hl h1))]
    exact decide_eq_true h1

/-- Claim C3: in the crash variant a flying round transitions to Crashed on a
tick exactly when the crash condition holds of the position set being checked,
namely when some active position has stake * currentMultiplier exceeding the
liquidity; the condition is a pure function of the positions and the
liquidity, and no crash occurs while every required payout is at most the
liquidity or the active set is empty. -/
theorem crash_condition_iff (s : CrashState) (hfly : s.phase = CrashPhase.flying)
    (hl : 0 ≤ s.liquidity) :
    ((tick s).phase = CrashPhase.crashed ↔
      ∃ p ∈ advancePlayers s.playersActive, s.liquidity < p.stake * p.entryMultiplier)
    ∧ (shouldCrashNow s.playersActive s.liquidity = true ↔
      ∃ p ∈ s.playersActive, s.liquidity < p.stake * p.entryMultiplier) := by
  constructor
  · simp only [tick]
    split_ifs with hc
    · exact iff_of_true (by simp [crash]) ((shouldCrashNow_iff _ _ hl).mp hc)
    · refine iff_of_false (by simp [hfly]) ?_
      intro hex
      exact hc ((shouldCrashNow_iff _ _ hl).mpr hex)
  · exact shouldCrashNow_iff _ _ hl

/-- Concrete flying state used by the crash-condition witness. -/
def crashWitnessState : CrashState :=
  { phase := CrashPhase.flying, nextPlayerId := 2, liquidity := 100, reserve := 0,
    multiplier := 1 / 2, countdown := 0,
    playersActive := [{ id := 1, stake := 1000, entryMultiplier := 1 / 2,
                        currentPayout := 500 }],
    playersCashedOut := [] }

theorem crash_condition_iff_witness :
    (tick crashWitnessState).phase = CrashPhase.crashed :=
  ((crash_condition_iff crashWitnessState rfl (by norm_num [crashWitnessState])).1).mpr
    ⟨{ id := 1, stake := 1000,
       entryMultiplier := round2 (1 / 2 + MULTIPLIER_STEP), currentPayout := 500 },
     by simp [crashWitnessState, advancePlayers],
     by norm_num [crashWitnessState, round2, MULTIPLIER_STEP, round_ofNat]⟩


lemma addStake_inv (a : ℚ) (s : CrashState) (hl : 0 ≤ s.liquidity) (hres : 0 ≤ s.reserve) :
    (0 ≤ (addStake a s).liquidity ∧ 0 ≤ (addStake a s).reserve) ∧
    s.liquidity ≤ (addStake a s).liquidity := by
  simp only [addStake]
  split_ifs with h1 h2 h3
  · exact ⟨⟨hl, hres⟩, le_refl _⟩
  · exact ⟨⟨hl, hres⟩, le_refl _⟩
  · have h2p : (0 : ℚ) < (Int.floor (safeNumber a) : ℚ) := lt_of_not_le h2
    refine ⟨⟨?_, ?_⟩, ?_⟩
    · simp [crash]; linarith
    · simp [crash]; linarith
    · simp [crash]
      exact Int.floor_nonneg.mpr (le_max_left 0 a)
  · have h2p : (0 : ℚ) < (Int.floor (safeNumber a) : ℚ) := lt_of_not_le h2
    refine ⟨⟨?_, ?_⟩, ?_⟩
    · simp; linarith
    · simpa using hres
    · simp
      exact Int.floor_nonneg.mpr (le_max_left 0 a)

lemma cashOutPlayer_inv (pid : ℕ) (s : CrashState)
    (hl : 0 ≤ s.liquidity) (hres : 0 ≤ s.reserve) :
    0 ≤ (cashOutPlayer pid s).liquidity ∧ 0 ≤ (cashOutPlayer pid s).reserve := by
  simp only [cashOutPlayer]
  split_ifs with h1
  · exact ⟨hl, hres⟩
  cases hfind : s.playersActive.find? (fun p => p.id == pid) with
  | none => simp [hfind]; exact ⟨hl, hres⟩
  | some p =>
    simp only [hfind]
    split_ifs with h2 h3
    · exact ⟨hl, hl⟩
    · exact ⟨by simp [crash], by simp [crash]⟩
    · exact ⟨by simp, by simpa using hres⟩

lemma flightTick_inv (s : CrashState) (hl : 0 ≤ s.liquidity) (hres : 0 ≤ s.reserve) :
    0 ≤ (flightTick s).liquidity ∧ 0 ≤ (flightTick s).reserve := by
  simp only [flightTick, tick]
  split_ifs with h1 h2
  · exact ⟨hl, hl⟩
  · exact ⟨hl, hres⟩
  · exact ⟨hl, hres⟩

/-- Claim C9: liquidity (and the reserve seeded from it) stays non-negative
across every operation of the crash simulator: stakes only add a non-negative
floored amount, cashout either crashes (leaving liquidity untouched) or debits
with a clamp at zero, reset zeroes both, and restart reloads the previously
non-negative reserve; moreover adding a stake never decreases liquidity. -/
theorem liquidity_invariant (op : CrashOp) (s : CrashState)
    (hl : 0 ≤ s.liquidity) (hres : 0 ≤ s.reserve) :
    (0 ≤ (step op s).liquidity ∧ 0 ≤ (step op s).reserve)
    ∧ ∀ a : ℚ, s.liquidity ≤ (step (CrashOp.stakeOp a) s).liquidity := by
  refine ⟨?_, fun a => ((addStake_inv a s hl hres).2)⟩
  cases op with
  | stakeOp a => exact (addStake_inv a s hl hres).1
  | cashOutOp pid => exact cashOutPlayer_inv pid s hl hres
  | flightTickOp => exact flightTick_inv s hl hres
  | countdownTickOp =>
    simp only [step, countdownTick]
    split_ifs <;> exact ⟨hl, hres⟩
  | startOp =>
    simp only [step, startCountdown]
    split_ifs <;> exact ⟨hl, hres⟩
  | restartOp => exact ⟨hres, hres⟩
  | resetLiquidityOp =>
    simp only [step, resetLiquidity]
    split_ifs <;> simp [crash]

/-- Concrete flying state used by the liquidity-invariant witness. -/
def invWitnessState : CrashState :=
  { phase := CrashPhase.flying, nextPlayerId := 2, liquidity := 100, reserve := 0,
    multiplier := 1 / 2, countdown := 0,
    playersActive := [{ id := 1, stake := 60, entryMultiplier := 1 / 2,
                        currentPayout := 30 }],
    playersCashedOut := [] }

theorem liquidity_invariant_witness :
    (0 ≤ (step (CrashOp.cashOutOp 1) invWitnessState).liquidity ∧
     0 ≤ (step (CrashOp.cashOutOp 1) invWitnessState).reserve)
    ∧ ∀ a : ℚ, invWitnessState.liquidity ≤
        (step (CrashOp.stakeOp a) invWitnessState).liquidity :=
  liquidity_invariant (CrashOp.cashOutOp 1) invWitnessState
    (by norm_num [invWitnessState]) (by norm_num [invWitnessState])

end TradeBet
